import Mathlib

/-!
Shallow embedding of `src/rl_envs/envs/labyrinth/labyrinth.py` (class `Labyrinth`).

Only `labyrinth.py` is present in the repository snapshot; the modules it
imports (`maze.py` with `MazeFactory`, `player.py` with `Player`,
`constants.py` with the cell codes, `display.py`) are absent and are modelled
from the spec where the claims need them; each such definition carries a
doc comment starting with `Modelled from the spec:`.

Rewards are Python floats in the source; they are embedded as `Rat` (the
claims only compare a returned reward with a named schema entry, never
perform float arithmetic).
-/

namespace Labyrinth

/-- Modelled from the spec: `constants.py` is not in the snapshot.  Section 6
gives the observation encoding as small integers in `[0, 4]` "corresponding to
{WALL, PATH, TARGET, START, PLAYER} in a fixed numeric order". -/
def WALL : Nat := 0

def PATH : Nat := 1

def TARGET : Nat := 2

def START : Nat := 3

def PLAYER : Nat := 4

/-- The four directional actions of `constants.Action` (UP, RIGHT, DOWN, LEFT),
matching `gym.spaces.Discrete(4)` in `__init__`. -/
inductive Action where
  | UP
  | RIGHT
  | DOWN
  | LEFT
deriving DecidableEq

abbrev Cell := Nat

/-- Grid positions are `(row, col)` pairs of Python ints (they may go negative
one step outside the grid before the bounds check). -/
abbrev Pos := Int × Int

abbrev Grid := List (List Cell)

/-- `self.maze.grid[r, c]` (read only after the bounds check in
`is_valid_move`, so the non-negative `toNat` view is exact there). -/
def get2d (g : Grid) (p : Pos) : Cell :=
  (g.getD p.1.toNat []).getD p.2.toNat WALL

/-- One numpy-style element assignment `row[j0] = v` inside a row. -/
def overlayRow (row : List Cell) (j0 : Int) (v : Cell) : List Cell :=
  row.enum.map (fun jc => if (jc.1 : Int) = j0 then v else jc.2)

/-- One numpy-style element assignment `state[p] = v` on the matrix (positions
written by the source are always in bounds and non-negative). -/
def overlayCell (g : Grid) (p : Pos) (v : Cell) : Grid :=
  g.enum.map (fun ir => if (ir.1 : Int) = p.1 then overlayRow ir.2 p.2 v else ir.2)

/-- The `Maze` value produced by `MazeFactory.create_maze`: grid plus start and
target cells (spec section 3). -/
structure Maze where
  grid : Grid
  start_position : Pos
  target_position : Pos
deriving DecidableEq

/-- Modelled from the spec: `player.py` is not in the snapshot.  Section 4.3:
`potential_next_position(action)` is a pure map from the four directional
actions to the current position plus a fixed unit delta per action, with no
bounds or wall checking. -/
def potential_next_position (pos : Pos) : Action → Pos
  | Action.UP => (pos.1 - 1, pos.2)
  | Action.RIGHT => (pos.1, pos.2 + 1)
  | Action.DOWN => (pos.1 + 1, pos.2)
  | Action.LEFT => (pos.1, pos.2 - 1)

/-- The three named reward scalars of `self.reward_schema`. -/
structure RewardSchema where
  neutral_reward : Rat
  wall_collision_reward : Rat
  target_reached_reward : Rat
deriving DecidableEq

/-- The default table assigned at `__init__` lines 62-67 when no schema is
supplied. -/
def default_reward_schema : RewardSchema :=
  { neutral_reward := -1 / 100
    wall_collision_reward := -1
    target_reached_reward := 10 }

/-- The `MazeFactory` object built at `__init__` lines 70-81: it stores the
generation parameters and the seed it was constructed with.  `stream_pos` is
the position of its internal seeded random stream (spec section 5), which
advances on each `create_maze` call. -/
structure MazeFactory where
  rows : Nat
  cols : Nat
  nr_desired_rooms : Option Nat
  nr_desired_rooms_range : Nat × Nat
  global_room_ratio : Option Rat
  global_room_ratio_range : Rat × Rat
  access_points_per_room : Option Nat
  access_points_per_room_range : Nat × Nat
  room_types : Option (List Nat)
  room_ratio : Option Rat
  room_ratio_range : Rat × Rat
  seed : Int
  stream_pos : Nat
deriving DecidableEq

/-- Modelled from the spec: `maze.py` is not in the snapshot.  Section 4.1:
`create_maze` is deterministic given the factory's seed and parameters, its
internal random stream being consumed in a fixed order, so the produced maze is
a deterministic function of `(rows, cols, seed, stream position)`.  The
concrete grid (all PATH) and the seed-derived distinct start/target cells stand
in for the absent generation algorithm; the claims use only determinism and the
shape of the value. -/
def mkMaze (rows cols : Nat) (seed : Int) (stream_pos : Nat) : Maze :=
  let n := rows * cols
  if n = 0 then
    { grid := [], start_position := (0, 0), target_position := (0, 0) }
  else
    let k := ((seed + (stream_pos : Int)) % (n : Int)).toNat
    let k2 := (k + 1) % n
    { grid := List.replicate rows (List.replicate cols PATH)
      start_position := (Int.ofNat (k / cols), Int.ofNat (k % cols))
      target_position := (Int.ofNat (k2 / cols), Int.ofNat (k2 % cols)) }

/-- `self.maze_factory.create_maze()`: returns the maze and the factory with
its internal stream advanced. -/
def MazeFactory.create_maze (f : MazeFactory) : Maze × MazeFactory :=
  (mkMaze f.rows f.cols f.seed f.stream_pos, { f with stream_pos := f.stream_pos + 1 })

/-- Modelled from the spec: the Python library RNGs (`random.Random(seed)`,
`np.random.RandomState(seed)`) are seeded streams consumed in a fixed order
(spec section 5).  A draw such as `randint(0, 1e6)` is embedded as a
deterministic function of the stream's seed and position; the concrete value is
never relied on by a claim, only determinism is. -/
def rand_stream (seed : Int) (pos : Nat) : Int :=
  (seed + (pos : Int)) % 1000001

/-- The mutable state of a `Labyrinth` instance: the fields assigned in
`__init__` / `setup_labyrinth` that the claims touch.  `reward_schema` is an
`Option` because `__init__` line 62 assigns the attribute only when the
constructor argument is falsy; `none` models the attribute being absent (a
read then raises `AttributeError`, embedded as a `none` step result). -/
structure LabState where
  rows : Nat
  cols : Nat
  seed : Option Int
  py_random_seed : Int
  py_random_pos : Nat
  np_random_seed : Int
  np_random_pos : Nat
  maze_factory : MazeFactory
  maze : Maze
  player_position : Pos
  state : Grid
  reward_schema : Option RewardSchema
deriving DecidableEq

/-- `build_state_matrix` (lines 94-100): copy the structural grid, then write
START at the start cell, TARGET at the target cell, PLAYER at the player cell,
in that order. -/
def build_state_matrix (maze : Maze) (player_position : Pos) : Grid :=
  overlayCell
    (overlayCell
      (overlayCell maze.grid maze.start_position START)
      maze.target_position TARGET)
    player_position PLAYER

/-- `is_inside_bounds` of `is_valid_move` (lines 129-130). -/
def is_inside_bounds (rows cols : Nat) (p : Pos) : Bool :=
  decide (0 ≤ p.1) && decide (p.1 < (rows : Int)) &&
    decide (0 ≤ p.2) && decide (p.2 < (cols : Int))

/-- `is_valid_move` (lines 127-135): bounds check then wall check on the
potential next position. -/
def is_valid_move (ls : LabState) (a : Action) : Bool :=
  let p := potential_next_position ls.player_position a
  if is_inside_bounds ls.rows ls.cols p = false then false
  else if get2d ls.maze.grid p = WALL then false
  else true

/-- `agent_move` (lines 137-139): unconditionally set the player position to
the potential next position. -/
def agent_move (ls : LabState) (a : Action) : LabState :=
  { ls with player_position := potential_next_position ls.player_position a }

/-- The `(observation, reward, done, truncated, info)` tuple returned by
`step`; `info` is `none` for the empty dict and `some s` for `{"info": s}`. -/
structure StepRes where
  obs : Grid
  reward : Rat
  done : Bool
  truncated : Bool
  info : Option String
deriving DecidableEq

/-- `step` (lines 102-125).  Line 104 reads `self.reward_schema` first, so a
missing attribute (see `LabState.reward_schema`) aborts the call: result
`none`.  Otherwise: invalid move returns the stale `self.state` with the
collision reward; an accepted move into the target returns the stale
`self.state` with the target reward and `done = True`; any other accepted move
rebuilds `self.state` via `build_state_matrix` and returns it with the neutral
reward. -/
def step (ls : LabState) (a : Action) : Option (LabState × StepRes) :=
  match ls.reward_schema with
  | none => none
  | some rs =>
    let reward := rs.neutral_reward
    let done := false
    let truncated := false
    if is_valid_move ls a = false then
      some (ls,
        { obs := ls.state, reward := rs.wall_collision_reward, done := done,
          truncated := truncated, info := some "Invalid move!" })
    else
      let ls1 := agent_move ls a
      if ls1.player_position = ls1.maze.target_position then
        some (ls1,
          { obs := ls1.state, reward := rs.target_reached_reward, done := true,
            truncated := truncated, info := some "Reached the target!" })
      else
        let new_state := build_state_matrix ls1.maze ls1.player_position
        some ({ ls1 with state := new_state },
          { obs := new_state, reward := reward, done := done,
            truncated := truncated, info := none })

/-- `setup_labyrinth` (lines 88-92): draw (and discard) `maze_seed` from the
numpy stream, regenerate the maze from the factory, put the player at the new
start, rebuild the state matrix. -/
def setup_labyrinth (ls : LabState) : LabState :=
  let ls1 := { ls with np_random_pos := ls.np_random_pos + 1 }
  let mf := ls1.maze_factory.create_maze
  let ls2 := { ls1 with
    maze_factory := mf.2
    maze := mf.1
    player_position := mf.1.start_position }
  { ls2 with state := build_state_matrix ls2.maze ls2.player_position }

/-- The constructor parameters of `Labyrinth.__init__` with their default
values (lines 13-28). -/
structure LabParams where
  rows : Nat
  cols : Nat
  maze_nr_desired_rooms : Option Nat := none
  maze_nr_desired_rooms_range : Nat × Nat := (1, 8)
  maze_global_room_ratio : Option Rat := none
  maze_global_room_ratio_range : Rat × Rat := (1 / 10, 4 / 5)
  room_access_points : Option Nat := none
  room_access_points_range : Nat × Nat := (1, 4)
  room_types : Option (List Nat) := none
  room_ratio : Option Rat := none
  room_ratio_range : Rat × Rat := (1 / 2, 3 / 2)
  reward_schema : Option RewardSchema := none
  seed : Option Int := none
deriving DecidableEq

/-- `__init__` (lines 44-86).  `entropy` stands for the unseeded
`random.randint(0, 1e6)` drawn at line 50 when no seed is supplied; it is
consulted only in that case.  Line 62 has no else branch: a supplied (truthy)
schema leaves `self.reward_schema` unset, embedded as `none`.  The `maze` and
`player_position` fields below are placeholders immediately overwritten by
`setup_labyrinth`, mirroring the attributes not existing before line 84. -/
def labyrinthInit (entropy : Int) (p : LabParams) : LabState :=
  let seed := p.seed.getD entropy
  setup_labyrinth
    { rows := p.rows
      cols := p.cols
      seed := some seed
      py_random_seed := seed
      py_random_pos := 0
      np_random_seed := seed
      np_random_pos := 0
      maze_factory :=
        { rows := p.rows
          cols := p.cols
          nr_desired_rooms := p.maze_nr_desired_rooms
          nr_desired_rooms_range := p.maze_nr_desired_rooms_range
          global_room_ratio := p.maze_global_room_ratio
          global_room_ratio_range := p.maze_global_room_ratio_range
          access_points_per_room := p.room_access_points
          access_points_per_room_range := p.room_access_points_range
          room_types := p.room_types
          room_ratio := p.room_ratio
          room_ratio_range := p.room_ratio_range
          seed := seed
          stream_pos := 0 }
      maze := { grid := [], start_position := (0, 0), target_position := (0, 0) }
      player_position := (0, 0)
      state := List.replicate p.rows (List.replicate p.cols WALL)
      reward_schema :=
        match p.reward_schema with
        | none => some default_reward_schema
        | some _ => none }

/-- `reset` (lines 141-154).  The `seed` parameter of the Python method is
never read in the body; the internal seed is incremented (or drawn from the
`py_random` stream if unset) and `setup_labyrinth` is rerun on the factory
built at construction time.  The method has no return statement, so the
returned observation component is always `none`. -/
def reset (ls : LabState) (_seed_arg : Option Int) : LabState × Option Grid :=
  let ls1 :=
    match ls.seed with
    | none =>
      { ls with
        seed := some (rand_stream ls.py_random_seed ls.py_random_pos)
        py_random_pos := ls.py_random_pos + 1 }
    | some s => { ls with seed := some (s + 1) }
  (setup_labyrinth ls1, none)

/-- State reached after one `step` call (the Python object after the call;
a call that raised leaves the object unchanged, since line 104 raises before
any mutation). -/
def next_state (ls : LabState) (a : Action) : LabState :=
  match step ls a with
  | some r => r.1
  | none => ls

/-- State after a sequence of `step` calls. -/
def stepMany (ls : LabState) (as : List Action) : LabState :=
  as.foldl next_state ls

/-- The invariant of claim C10: the position is inside `[0, rows) x [0, cols)`
and the maze grid there is not WALL. -/
def valid_position (ls : LabState) (p : Pos) : Prop :=
  is_inside_bounds ls.rows ls.cols p = true ∧ get2d ls.maze.grid p ≠ WALL

instance (ls : LabState) (p : Pos) : Decidable (valid_position ls p) := by
  unfold valid_position
  infer_instance

/-! Concrete 1 x 3 environments used as witnesses and counterexamples. -/

/-- A 1 x 3 corridor of PATH cells, start at the left end, target at the right
end. -/
def corridorMaze : Maze :=
  { grid := [[PATH, PATH, PATH]], start_position := (0, 0), target_position := (0, 2) }

/-- A 1 x 3 strip whose middle cell is WALL. -/
def wallMaze : Maze :=
  { grid := [[PATH, WALL, PATH]], start_position := (0, 0), target_position := (0, 2) }

/-- A factory record for the 1 x 3 examples (its generation parameters are the
constructor defaults and are inert for the step claims). -/
def baseFactory : MazeFactory :=
  { rows := 1
    cols := 3
    nr_desired_rooms := none
    nr_desired_rooms_range := (1, 8)
    global_room_ratio := none
    global_room_ratio_range := (1 / 10, 4 / 5)
    access_points_per_room := none
    access_points_per_room_range := (1, 4)
    room_types := none
    room_ratio := none
    room_ratio_range := (1 / 2, 3 / 2)
    seed := 0
    stream_pos := 0 }

/-- An environment state over `m` with the player at `pp` and the state matrix
freshly built, as after a `setup_labyrinth`. -/
def exampleState (m : Maze) (pp : Pos) : LabState :=
  { rows := 1
    cols := 3
    seed := some 0
    py_random_seed := 0
    py_random_pos := 0
    np_random_seed := 0
    np_random_pos := 0
    maze_factory := baseFactory
    maze := m
    player_position := pp
    state := build_state_matrix m pp
    reward_schema := some default_reward_schema }

/-- Player at the left end of the walled strip; RIGHT hits the WALL. -/
def envWall : LabState := exampleState wallMaze (0, 0)

/-- Player in the middle of the corridor; RIGHT reaches the target. -/
def envMid : LabState := exampleState corridorMaze (0, 1)

/-- Player at the left end of the corridor; RIGHT is an accepted non-goal
move. -/
def envStart : LabState := exampleState corridorMaze (0, 0)

/-! Claim theorems. -/

/-- C1: for every environment state with a reward schema and every action whose
potential next position is out of bounds or lands on a WALL cell, `step`
rejects the move: the whole environment state (hence the player position) is
unchanged, the returned observation is the pre-call state matrix, the reward is
`wall_collision_reward`, `done` is false, and the info mapping carries
"Invalid move!". -/
theorem step_rejects_invalid_move (ls : LabState) (a : Action) (rs : RewardSchema)
    (hrs : ls.reward_schema = some rs)
    (h : is_inside_bounds ls.rows ls.cols (potential_next_position ls.player_position a) = false
       ∨ get2d ls.maze.grid (potential_next_position ls.player_position a) = WALL) :
    step ls a = some (ls,
      { obs := ls.state, reward := rs.wall_collision_reward, done := false,
        truncated := false, info := some "Invalid move!" }) := by
  have hv : is_valid_move ls a = false := by
    unfold is_valid_move
    rcases h with h | h
    · simp [h]
    · simp [h]
  simp [step, hrs, hv]

/-- Witness for C1 at a concrete input: in `envWall` the cell to the right of
the player is WALL, and `step` returns the rejected-move tuple unchanged. -/
theorem step_rejects_invalid_move_witness :
    step envWall Action.RIGHT = some (envWall,
      { obs := envWall.state, reward := default_reward_schema.wall_collision_reward,
        done := false, truncated := false, info := some "Invalid move!" }) :=
  step_rejects_invalid_move envWall Action.RIGHT default_reward_schema rfl
    (Or.inr (by decide))

/-- C2: for every accepted move whose new player position equals the maze's
target position, `step` returns reward `target_reached_reward` and
`done = true`. -/
theorem step_target_reached (ls : LabState) (a : Action) (rs : RewardSchema)
    (hrs : ls.reward_schema = some rs)
    (hv : is_valid_move ls a = true)
    (ht : potential_next_position ls.player_position a = ls.maze.target_position) :
    (step ls a).map (fun r => (r.2.reward, r.2.done))
      = some (rs.target_reached_reward, true) := by
  simp [step, hrs, hv, agent_move, ht]

/-- Witness for C2 at a concrete input: stepping RIGHT from the middle of the
corridor reaches the target. -/
theorem step_target_reached_witness :
    (step envMid Action.RIGHT).map (fun r => (r.2.reward, r.2.done))
      = some (default_reward_schema.target_reached_reward, true) :=
  step_target_reached envMid Action.RIGHT default_reward_schema rfl (by decide) (by decide)

/-- C9: for every accepted move whose new player position is not the target,
`step` returns reward `neutral_reward` and `done = false`. -/
theorem step_neutral_reward (ls : LabState) (a : Action) (rs : RewardSchema)
    (hrs : ls.reward_schema = some rs)
    (hv : is_valid_move ls a = true)
    (ht : potential_next_position ls.player_position a ≠ ls.maze.target_position) :
    (step ls a).map (fun r => (r.2.reward, r.2.done))
      = some (rs.neutral_reward, false) := by
  simp [step, hrs, hv, agent_move, ht]

/-- Witness for C9 at a concrete input: stepping RIGHT from the left end of the
corridor is an accepted non-goal move. -/
theorem step_neutral_reward_witness :
    (step envStart Action.RIGHT).map (fun r => (r.2.reward, r.2.done))
      = some (default_reward_schema.neutral_reward, false) :=
  step_neutral_reward envStart Action.RIGHT default_reward_schema rfl (by decide) (by decide)

/-- C3, counterexample: stepping RIGHT from `envMid` is an accepted move that
reaches the target, yet the returned observation is the stale pre-call state
matrix (player overlay still at `(0, 1)`), not the matrix rebuilt from the new
player position `(0, 2)`; so the rejected-move branch is not the only path of
`step` that skips the rebuild. -/
theorem step_goal_branch_returns_stale_observation :
    is_valid_move envMid Action.RIGHT = true
    ∧ potential_next_position envMid.player_position Action.RIGHT
        = envMid.maze.target_position
    ∧ (step envMid Action.RIGHT).map (fun r => r.2.obs) = some envMid.state
    ∧ (step envMid Action.RIGHT).map (fun r => r.2.obs)
        ≠ some (build_state_matrix envMid.maze envMid.maze.target_position) := by
  refine ⟨by decide, by decide, by decide, by decide⟩

/-- C3 as amended: with a reward schema present, the rejected-move branch and
the target-reached branch of `step` both return the previous state matrix
without rebuilding it, and every accepted non-goal move returns the
observation rebuilt from the new player position by overlaying, in order,
START, then TARGET, then PLAYER onto a copy of the structural grid (PLAYER
written last, so it wins on coincidence). -/
theorem step_observation_paths (ls : LabState) (a : Action) (rs : RewardSchema)
    (hrs : ls.reward_schema = some rs) :
    (is_valid_move ls a = false →
      (step ls a).map (fun r => r.2.obs) = some ls.state)
    ∧ (is_valid_move ls a = true →
        potential_next_position ls.player_position a = ls.maze.target_position →
        (step ls a).map (fun r => r.2.obs) = some ls.state)
    ∧ (is_valid_move ls a = true →
        potential_next_position ls.player_position a ≠ ls.maze.target_position →
        (step ls a).map (fun r => r.2.obs)
          = some (overlayCell
              (overlayCell
                (overlayCell ls.maze.grid ls.maze.start_position START)
                ls.maze.target_position TARGET)
              (potential_next_position ls.player_position a) PLAYER)) := by
  refine ⟨?_, ?_, ?_⟩
  · intro hv
    simp [step, hrs, hv]
  · intro hv ht
    simp [step, hrs, hv, agent_move, ht]
  · intro hv ht
    simp [step, hrs, hv, agent_move, ht, build_state_matrix]

/-- Witness for C3 (amended) at a concrete input: the three branch
descriptions instantiated at `envStart` stepping RIGHT. -/
theorem step_observation_paths_witness :
    (is_valid_move envStart Action.RIGHT = false →
      (step envStart Action.RIGHT).map (fun r => r.2.obs) = some envStart.state)
    ∧ (is_valid_move envStart Action.RIGHT = true →
        potential_next_position envStart.player_position Action.RIGHT
          = envStart.maze.target_position →
        (step envStart Action.RIGHT).map (fun r => r.2.obs) = some envStart.state)
    ∧ (is_valid_move envStart Action.RIGHT = true →
        potential_next_position envStart.player_position Action.RIGHT
          ≠ envStart.maze.target_position →
        (step envStart Action.RIGHT).map (fun r => r.2.obs)
          = some (overlayCell
              (overlayCell
                (overlayCell envStart.maze.grid envStart.maze.start_position START)
                envStart.maze.target_position TARGET)
              (potential_next_position envStart.player_position Action.RIGHT) PLAYER)) :=
  step_observation_paths envStart Action.RIGHT default_reward_schema rfl

/-- C4, counterexample: stepping RIGHT from `envMid` returns `done = true`
(terminal step), yet without any reset the following LEFT move is processed
and accepted — the info mapping is empty, `done` is false again, and the
player moves back to `(0, 1)`. -/
theorem step_accepted_after_terminal_step :
    (step envMid Action.RIGHT).map (fun r => r.2.done) = some true
    ∧ (step (next_state envMid Action.RIGHT) Action.LEFT).map
        (fun r => (r.2.done, r.2.info)) = some (false, none)
    ∧ (next_state (next_state envMid Action.RIGHT) Action.LEFT).player_position
        = (0, 1) := by
  refine ⟨by decide, by decide, by decide⟩

/-- C4 as amended: `step` performs no terminal-flag check; even when the
player already stands on the target cell (the state left behind by a step that
returned `done = true`), any action passing the bounds/wall check is accepted
and moves the player. -/
theorem step_has_no_terminal_guard (ls : LabState) (a : Action) (rs : RewardSchema)
    (hrs : ls.reward_schema = some rs)
    (_hdone : ls.player_position = ls.maze.target_position)
    (hv : is_valid_move ls a = true) :
    (step ls a).map (fun r => r.1.player_position)
      = some (potential_next_position ls.player_position a) := by
  by_cases hnew : potential_next_position ls.player_position a = ls.maze.target_position
  · simp [step, hrs, hv, agent_move, hnew]
  · simp [step, hrs, hv, agent_move, hnew]

/-- Witness for C4 (amended) at a concrete input: from the post-terminal state
of `envMid` (player on the target), LEFT is accepted and moves the player. -/
theorem step_has_no_terminal_guard_witness :
    (step (next_state envMid Action.RIGHT) Action.LEFT).map
      (fun r => r.1.player_position) = some (0, 1) :=
  step_has_no_terminal_guard (next_state envMid Action.RIGHT) Action.LEFT
    default_reward_schema rfl (by decide) (by decide)

/-- C5: two environments constructed with identical parameters and the same
explicit integer seed have bit-identical maze grids and equal start and target
positions, whatever the ambient entropy of each run was (construction consults
the entropy source only when no seed is supplied). -/
theorem construction_determinism (p : LabParams) (s ent1 ent2 : Int) :
    (labyrinthInit ent1 { p with seed := some s }).maze.grid
        = (labyrinthInit ent2 { p with seed := some s }).maze.grid
    ∧ (labyrinthInit ent1 { p with seed := some s }).maze.start_position
        = (labyrinthInit ent2 { p with seed := some s }).maze.start_position
    ∧ (labyrinthInit ent1 { p with seed := some s }).maze.target_position
        = (labyrinthInit ent2 { p with seed := some s }).maze.target_position :=
  ⟨rfl, rfl, rfl⟩

/-- The parameters of the concrete reset examples: a 2 x 2 grid, internal seed
5, default reward schema. -/
def resetParams : LabParams := { rows := 2, cols := 2, seed := some 5 }

/-- The concrete environment used in the reset counterexamples. -/
def envReset : LabState := labyrinthInit 0 resetParams

/-- C6, counterexample: on the concrete environment `envReset` (internal seed
5), `reset` advances the internal seed to 6, but the maze is regenerated by a
factory still carrying construction seed 5 — the newly advanced seed is never
given to it — and the call returns no observation (the Python method has no
return statement). -/
theorem reset_counterexample :
    (reset envReset none).1.seed = some 6
    ∧ (reset envReset none).1.maze_factory.seed = 5
    ∧ (reset envReset none).2 = none := by
  refine ⟨rfl, rfl, rfl⟩

/-- C6 as amended: `reset` advances the internal seed (increment, or a fresh
draw if unset), then reruns `setup_labyrinth`: the maze is regenerated by the
factory built at construction time — the factory keeps its original seed and
only its internal stream position advances; the newly advanced environment
seed is not passed to it — the player is reset to the new maze's start, the
state matrix is rebuilt, and nothing is returned to the caller. -/
theorem reset_regenerates (ls : LabState) (arg : Option Int) (s : Int)
    (hs : ls.seed = some s) :
    (reset ls arg).1.seed = some (s + 1)
    ∧ (reset ls arg).1.maze_factory.seed = ls.maze_factory.seed
    ∧ (reset ls arg).1.maze_factory.stream_pos = ls.maze_factory.stream_pos + 1
    ∧ (reset ls arg).1.maze
        = mkMaze ls.maze_factory.rows ls.maze_factory.cols
            ls.maze_factory.seed ls.maze_factory.stream_pos
    ∧ (reset ls arg).1.player_position = (reset ls arg).1.maze.start_position
    ∧ (reset ls arg).1.state
        = build_state_matrix (reset ls arg).1.maze (reset ls arg).1.player_position
    ∧ (reset ls arg).2 = none := by
  simp [reset, hs, setup_labyrinth, MazeFactory.create_maze]

/-- Witness for C6 (amended) at a concrete input: the reset of `envReset`
evaluated. -/
theorem reset_regenerates_witness :
    (reset envReset none).1.seed = some (5 + 1)
    ∧ (reset envReset none).1.maze_factory.seed = envReset.maze_factory.seed
    ∧ (reset envReset none).1.maze_factory.stream_pos
        = envReset.maze_factory.stream_pos + 1
    ∧ (reset envReset none).1.maze
        = mkMaze envReset.maze_factory.rows envReset.maze_factory.cols
            envReset.maze_factory.seed envReset.maze_factory.stream_pos
    ∧ (reset envReset none).1.player_position
        = (reset envReset none).1.maze.start_position
    ∧ (reset envReset none).1.state
        = build_state_matrix (reset envReset none).1.maze
            (reset envReset none).1.player_position
    ∧ (reset envReset none).2 = none :=
  reset_regenerates envReset none 5 rfl

/-- C7, counterexample: calling `reset` on `envReset` (internal seed 5) with
the explicit seed 42 does not use 42 — the internal counter is incremented to
6 and the whole call behaves exactly as a call without a seed. -/
theorem reset_explicit_seed_not_used :
    (reset envReset (some 42)).1.seed = some 6
    ∧ (reset envReset (some 42)).1.seed ≠ some 42
    ∧ reset envReset (some 42) = reset envReset none := by
  refine ⟨rfl, by decide, rfl⟩

/-- C7 as amended: the `seed` argument of `reset` is ignored — a call with an
explicit seed is identical to a call without one — and every call advances the
internal counter (increment when set, fresh draw from the `py_random` stream
when unset). -/
theorem reset_ignores_seed_argument (ls : LabState) (arg : Option Int) :
    reset ls arg = reset ls none
    ∧ (reset ls arg).1.seed =
        (match ls.seed with
         | some s => some (s + 1)
         | none => some (rand_stream ls.py_random_seed ls.py_random_pos)) := by
  refine ⟨rfl, ?_⟩
  cases h : ls.seed <;> simp [reset, h, setup_labyrinth]

/-- The reward schema supplied in the C8 failing input. -/
def customSchema : RewardSchema :=
  { neutral_reward := 0, wall_collision_reward := -1, target_reached_reward := 1 }

/-- The C8 failing input: construction parameters that supply a reward
schema. -/
def customSchemaParams : LabParams :=
  { rows := 3, cols := 3, reward_schema := some customSchema, seed := some 1 }

/-- C8: evaluation at the failing input.  `__init__` line 62 guards the
default assignment with `if not reward_schema:` and has no else branch, so
constructing with a supplied schema leaves the `reward_schema` attribute
unset; the very first `step` then fails at line 104 (AttributeError, embedded
as `none`) instead of returning rewards drawn from the supplied mapping.
Construction without a schema does install the default table. -/
theorem reward_schema_override_lost :
    (labyrinthInit 0 customSchemaParams).reward_schema = none
    ∧ step (labyrinthInit 0 customSchemaParams) Action.DOWN = none
    ∧ (labyrinthInit 0 { customSchemaParams with reward_schema := none }).reward_schema
        = some default_reward_schema :=
  ⟨rfl, rfl, rfl⟩

/-- An accepted move passed both checks of `is_valid_move`: its potential next
position is inside the grid and not a WALL cell. -/
theorem is_valid_move_sound (ls : LabState) (a : Action)
    (hv : is_valid_move ls a = true) :
    is_inside_bounds ls.rows ls.cols (potential_next_position ls.player_position a) = true
    ∧ get2d ls.maze.grid (potential_next_position ls.player_position a) ≠ WALL := by
  cases hb : is_inside_bounds ls.rows ls.cols (potential_next_position ls.player_position a) with
  | false => simp [is_valid_move, hb] at hv
  | true =>
    by_cases hw : get2d ls.maze.grid (potential_next_position ls.player_position a) = WALL
    · simp [is_valid_move, hb, hw] at hv
    · exact ⟨rfl, hw⟩

/-- One `step` call preserves the position invariant: the rejected branch (and
a call aborted on the missing schema) leaves the state untouched, and an
accepted branch moves the player only to a position that passed the
bounds-and-wall check; `rows`, `cols` and the maze are never changed. -/
theorem next_state_valid (ls : LabState) (a : Action)
    (h : valid_position ls ls.player_position) :
    valid_position (next_state ls a) (next_state ls a).player_position := by
  unfold next_state
  cases hrs : ls.reward_schema with
  | none => simpa [step, hrs] using h
  | some rs =>
    cases hv : is_valid_move ls a with
    | false => simpa [step, hrs, hv] using h
    | true =>
      have hs := is_valid_move_sound ls a hv
      by_cases hnew : potential_next_position ls.player_position a
          = ls.maze.target_position
      · simp [valid_position, step, hrs, hv, agent_move, hnew]
        exact ⟨hnew ▸ hs.1, hnew ▸ hs.2⟩
      · simp [valid_position, step, hrs, hv, agent_move, hnew]
        exact ⟨hs.1, hs.2⟩

/-- The position invariant propagates through any sequence of `step` calls. -/
theorem stepMany_valid (as : List Action) (ls : LabState)
    (h : valid_position ls ls.player_position) :
    valid_position (stepMany ls as) (stepMany ls as).player_position := by
  induction as generalizing ls with
  | nil => exact h
  | cons a rest ih =>
    have h1 := next_state_valid ls a h
    simpa [stepMany, List.foldl] using ih (next_state ls a) h1

/-- C10: if the generated maze's start position is inside
`[0, rows) x [0, cols)` and not a WALL cell, then after construction — which
puts the player on that start cell — and after every sequence of `step` calls,
accepted or rejected, the player's position is inside the grid and not on a
WALL cell: `step` moves the player only to positions that passed the
bounds-and-wall check. -/
theorem player_position_always_valid (entropy : Int) (p : LabParams)
    (as : List Action)
    (h : valid_position (labyrinthInit entropy p)
        (labyrinthInit entropy p).maze.start_position) :
    valid_position (stepMany (labyrinthInit entropy p) as)
      (stepMany (labyrinthInit entropy p) as).player_position := by
  apply stepMany_valid
  have hp : (labyrinthInit entropy p).player_position
      = (labyrinthInit entropy p).maze.start_position := rfl
  rw [hp]
  exact h

/-- The concrete construction parameters of the C10 witness. -/
def invariantParams : LabParams := { rows := 2, cols := 2, seed := some 3 }

/-- Witness for C10 at a concrete input: a freshly constructed 2 x 2
environment stepped with UP then RIGHT (the second move is rejected at the
boundary) keeps the player inside the grid on a non-WALL cell. -/
theorem player_position_always_valid_witness :
    valid_position (stepMany (labyrinthInit 0 invariantParams)
        [Action.UP, Action.RIGHT])
      (stepMany (labyrinthInit 0 invariantParams)
        [Action.UP, Action.RIGHT]).player_position :=
  player_position_always_valid 0 invariantParams [Action.UP, Action.RIGHT] (by decide)

end Labyrinth
